import Mathlib

/-!
# BackTraderAlor — bar acquisition and reconciliation engine, formalized

A shallow embedding of the repository's two source files:

* `src/backtrader_alor/data.py` — the `Data` feed class: `start`, `_load`
  (the reconciler step invoked by the host pull loop), `is_bar_valid`
  (the session filter), `get_bar_open_date_time`,
  `get_bar_close_date_time`, `get_alor_date_time_now`.
* `src/backtrader_alor/store.py` — the `Store`: the notification queue
  (`put_notification` / `get_notifications`) and the timeframe conversion
  helpers (`timeframe_to_timedelta`).

External collaborators (the Python `datetime` library, the Alor transport
client, backtrader's `date2num`) are modelled at their interfaces: calendar
datetimes are implemented with the proleptic Gregorian ordinal arithmetic
Python's `datetime` uses, the price normalisation `alor_price_to_price` is
an abstract function carried in the feed parameters, the MSK conversion of
the transport is the fixed UTC+3 offset, and `date2num` is taken to be the
identity on datetimes (it is a strictly monotone injection in backtrader).
-/

/-! ## Python `datetime` model (external collaborator) -/

/-- Python `datetime.time`: time-of-day with microsecond precision. -/
structure TimeOfDay where
  hour : Nat
  minute : Nat
  second : Nat
  microsecond : Nat
deriving DecidableEq, Repr

/-- Python `datetime.datetime` (naive): calendar fields with microsecond
precision. Comparison is field-lexicographic, exactly as in Python. -/
structure DateTime where
  year : Nat
  month : Nat
  day : Nat
  hour : Nat
  minute : Nat
  second : Nat
  microsecond : Nat
deriving DecidableEq, Repr

/-- Python `time.min` = `time(0, 0, 0, 0)`, backtrader's sentinel for an
unbounded session start. -/
def timeMin : TimeOfDay := ⟨0, 0, 0, 0⟩

/-- `time(23, 59, 59, 999990)`, backtrader's sentinel for an unbounded
session end. -/
def sessionEndDefault : TimeOfDay := ⟨23, 59, 59, 999990⟩

/-- Python `datetime.min` = `datetime(1, 1, 1)`, initial `dt_last_open`. -/
def datetimeMin : DateTime := ⟨1, 1, 1, 0, 0, 0, 0⟩

/-- Lexicographic strict order on times of day (Python `<` on `time`). -/
abbrev TimeOfDay.lt (a b : TimeOfDay) : Prop :=
  a.hour < b.hour ∨ (a.hour = b.hour ∧
    (a.minute < b.minute ∨ (a.minute = b.minute ∧
      (a.second < b.second ∨ (a.second = b.second ∧
        a.microsecond < b.microsecond)))))

/-- Lexicographic strict order on datetimes (Python `<` on `datetime`). -/
abbrev DateTime.lt (a b : DateTime) : Prop :=
  a.year < b.year ∨ (a.year = b.year ∧
    (a.month < b.month ∨ (a.month = b.month ∧
      (a.day < b.day ∨ (a.day = b.day ∧
        (a.hour < b.hour ∨ (a.hour = b.hour ∧
          (a.minute < b.minute ∨ (a.minute = b.minute ∧
            (a.second < b.second ∨ (a.second = b.second ∧
              a.microsecond < b.microsecond)))))))))))

/-- Python `<=` on `datetime`: for the total lexicographic order this is
the complement of the reversed strict order. -/
abbrev DateTime.le (a b : DateTime) : Prop := ¬ DateTime.lt b a

theorem DateTime.lt_trans {a b c : DateTime} :
    DateTime.lt a b → DateTime.lt b c → DateTime.lt a c := by
  unfold DateTime.lt
  omega

theorem DateTime.not_le_iff_lt {a b : DateTime} :
    ¬ DateTime.le a b ↔ DateTime.lt b a := by
  unfold DateTime.le
  exact not_not

/-- Proleptic Gregorian leap-year test (Python `calendar.isleap`). -/
def isLeap (y : Nat) : Bool :=
  (y % 4 == 0 && y % 100 != 0) || (y % 400 == 0)

/-- Month lengths for a (non-)leap year. -/
def daysInMonths (leap : Bool) : List Nat :=
  [31, if leap then 29 else 28, 31, 30, 31, 30, 31, 31, 30, 31, 30, 31]

/-- Days in all years strictly before year `y` (Python `_days_before_year`). -/
def daysBeforeYear (y : Nat) : Nat :=
  (y - 1) * 365 + (y - 1) / 4 - (y - 1) / 100 + (y - 1) / 400

/-- Days in year `y` strictly before month `m` (Python `_days_before_month`). -/
def daysBeforeMonth (leap : Bool) (m : Nat) : Nat :=
  ((daysInMonths leap).take (m - 1)).foldl (fun a b => a + b) 0

/-- Proleptic Gregorian ordinal of a date, with `0001-01-01` as day 1
(Python `datetime.toordinal`). -/
def ymd2ord (y m d : Nat) : Nat :=
  daysBeforeYear y + daysBeforeMonth (isLeap y) m + d

/-- Scan the month-length table: from a 0-based day-of-year, the 1-based
month and day (helper for `ord2ymd`). -/
def monthFromDays (m n : Nat) : List Nat → Nat × Nat
  | [] => (m, n + 1)
  | d :: rest => if n < d then (m, n + 1) else monthFromDays (m + 1) (n - d) rest

/-- Inverse of `ymd2ord` (Python `datetime.fromordinal`, the `_ord2ymd`
400/100/4/1-year decomposition). -/
def ord2ymd (ordinal : Nat) : Nat × Nat × Nat :=
  let n := ordinal - 1
  let n400 := n / 146097
  let r400 := n % 146097
  let n100 := r400 / 36524
  let r100 := r400 % 36524
  let n4 := r100 / 1461
  let r4 := r100 % 1461
  let n1 := r4 / 365
  let r1 := r4 % 365
  let year := n400 * 400 + n100 * 100 + n4 * 4 + n1 + 1
  if n1 = 4 ∨ n100 = 4 then (year - 1, 12, 31)
  else
    let md := monthFromDays 1 r1 (daysInMonths (isLeap year))
    (year, md.1, md.2)

/-- Python `datetime.utcfromtimestamp` on a whole-second UTC timestamp. -/
def utcfromtimestamp (ts : Nat) : DateTime :=
  let days := ts / 86400
  let rem := ts % 86400
  let ymd := ord2ymd (ymd2ord 1970 1 1 + days)
  { year := ymd.1, month := ymd.2.1, day := ymd.2.2,
    hour := rem / 3600, minute := rem % 3600 / 60, second := rem % 60,
    microsecond := 0 }

/-- Adding a non-negative whole-second `timedelta` to a datetime
(Python `datetime.__add__`), via the ordinal representation. -/
def DateTime.addSeconds (dt : DateTime) (secs : Nat) : DateTime :=
  let total := (ymd2ord dt.year dt.month dt.day - 1) * 86400
    + dt.hour * 3600 + dt.minute * 60 + dt.second + secs
  let ymd := ord2ymd (total / 86400 + 1)
  { year := ymd.1, month := ymd.2.1, day := ymd.2.2,
    hour := total % 86400 / 3600, minute := total % 86400 % 3600 / 60,
    second := total % 86400 % 60, microsecond := dt.microsecond }

/-- Time-of-day component of a datetime (Python `datetime.time()`). -/
def DateTime.time (dt : DateTime) : TimeOfDay :=
  ⟨dt.hour, dt.minute, dt.second, dt.microsecond⟩

/-! ## Store (`store.py`) -/

/-- backtrader `TimeFrame` constants used by the store's conversions. -/
inductive TimeFrame where
  | Seconds
  | Minutes
  | Days
  | Weeks
  | Months
  | Years
deriving DecidableEq, Repr

/-- Python `timedelta` restricted to the non-negative whole-second values
the store produces, represented by its total seconds. -/
structure Timedelta where
  totalSeconds : Nat
deriving DecidableEq, Repr

/-- `Store.timeframe_to_timedelta`: timeframe and compression to a time
difference; the month and year branches raise `NotImplementedError`,
modelled as `Except.error`. -/
def timeframe_to_timedelta (timeframe : TimeFrame) (compression : Nat) :
    Except Unit Timedelta :=
  if timeframe = TimeFrame.Days then Except.ok ⟨86400⟩
  else if timeframe = TimeFrame.Weeks then Except.ok ⟨604800⟩
  else if timeframe = TimeFrame.Months then Except.error ()
  else if timeframe = TimeFrame.Years then Except.error ()
  else if timeframe = TimeFrame.Minutes then Except.ok ⟨60 * compression⟩
  else Except.ok ⟨compression⟩

/-- Pop elements off the front of the deque until the `none` sentinel is
popped (Python `iter(self.notifs.popleft, None)`): the values popped
before the sentinel, and the deque contents left behind it. -/
def drainFrom {α : Type} : List (Option α) → List α × List (Option α)
  | [] => ([], [])
  | none :: rest => ([], rest)
  | some a :: rest =>
    let res := drainFrom rest
    (a :: res.1, res.2)

/-- `Store.get_notifications`: append a `None` sentinel to the deque and
drain up to it. `queued` is the deque content when the call starts;
`during` are the notifications producers append to the back of the deque
while the drain iterates — they land behind the sentinel. Returns the
drained list and the deque content left for the next drain. -/
def get_notifications {α : Type} (queued during : List α) :
    List α × List (Option α) :=
  drainFrom (queued.map some ++ [none] ++ during.map some)

/-! ## Feed data model (`data.py`) -/

/-- A raw OHLCV bar as delivered by the transport: UTC timestamp in whole
seconds and raw (unnormalised) prices. -/
structure Bar where
  time : Nat
  open_ : Int
  high : Int
  low : Int
  close : Int
  volume : Int
deriving DecidableEq, Repr

/-- One entry of the shared inbox `store.new_bars`:
`dict(provider_name=..., response=dict(guid=..., data=bar))`. -/
structure InboxEntry where
  provider_name : String
  guid : String
  data : Bar
deriving DecidableEq, Repr

/-- backtrader feed status notifications used by this feed. -/
inductive Notification where
  | CONNECTED
  | DISCONNECTED
  | DELAYED
  | LIVE
deriving DecidableEq, Repr

/-- The feed's configuration: backtrader params plus the fields fixed at
`__init__`/`start` (provider name, subscription guid) and the external
price normalisation `alor_price_to_price` for this exchange/symbol. -/
structure Params where
  live_bars : Bool
  four_price_doji : Bool
  sessionstart : TimeOfDay
  sessionend : TimeOfDay
  timeframe : TimeFrame
  compression : Nat
  provider_name : String
  guid : String
  price : Int → Int

/-- The ambient clocks read by `get_alor_date_time_now`: the Alor server
time (`provider.get_time()`, a UTC timestamp) and the local clock already
translated to MSK (`datetime.now(tz_msk).replace(tzinfo=None)`). -/
structure Env where
  server_time : Nat
  local_now_msk : DateTime

/-- The mutable state read and written by `Data._load`: the feed's own
fields plus the store's shared inbox and the feed's notification queue
(`put_notification` appends to it). -/
structure LState where
  history_bars : List Bar
  new_bars : List InboxEntry
  dt_last_open : DateTime
  last_bar_received : Bool
  live_mode : Bool
  notifs : List Notification
deriving DecidableEq, Repr

/-- The record `_load` writes to the backtrader lines on success
(`date2num` modelled as the identity on datetimes). -/
structure BarRecord where
  datetime : DateTime
  open_ : Int
  high : Int
  low : Int
  close : Int
  volume : Int
  openinterest : Int
deriving DecidableEq, Repr

/-- `_load`'s three possible outcomes: `True` with the lines written,
`None` ("no bar yet, poll again"), `False` ("no more data"). -/
inductive LoadResult where
  | bar (record : BarRecord)
  | nobar
  | nomore
deriving DecidableEq, Repr

/-! ## Feed functions (`data.py`) -/

/-- `provider.utc_timestamp_to_msk_datetime` (external collaborator):
MSK is the fixed offset UTC+3. -/
def utc_timestamp_to_msk_datetime (ts : Nat) : DateTime :=
  utcfromtimestamp (ts + 3 * 3600)

/-- `Data.get_bar_open_date_time`: MSK for intraday timeframes, GMT for
daily and above. -/
def get_bar_open_date_time (p : Params) (bar : Bar) : DateTime :=
  if p.timeframe = TimeFrame.Minutes ∨ p.timeframe = TimeFrame.Seconds
  then utc_timestamp_to_msk_datetime bar.time
  else utcfromtimestamp bar.time

/-- `Data.get_bar_close_date_time`: close time of the bar opening at
`dt_open`, `period` bars ahead. -/
def get_bar_close_date_time (p : Params) (dt_open : DateTime) (period : Nat) :
    DateTime :=
  if p.timeframe = TimeFrame.Days then dt_open.addSeconds (86400 * period)
  else if p.timeframe = TimeFrame.Weeks then dt_open.addSeconds (604800 * period)
  else if p.timeframe = TimeFrame.Months then
    { year := dt_open.year + (dt_open.month + period - 1) / 12,
      month := (dt_open.month + period - 1) % 12 + 1,
      day := 1, hour := 0, minute := 0, second := 0, microsecond := 0 }
  else if p.timeframe = TimeFrame.Years then
    { dt_open with year := dt_open.year + period }
  else if p.timeframe = TimeFrame.Minutes then
    dt_open.addSeconds (60 * (p.compression * period))
  else dt_open.addSeconds (p.compression * period)

/-- `Data.get_alor_date_time_now`: server time when the last history bar
has been received, local MSK time otherwise. -/
def get_alor_date_time_now (env : Env) (last_bar_received : Bool) : DateTime :=
  if last_bar_received then utc_timestamp_to_msk_datetime env.server_time
  else env.local_now_msk

/-- `Data.is_bar_valid`: the session filter, four rules short-circuiting
on the first failure. -/
def is_bar_valid (p : Params) (env : Env) (last_bar_received : Bool)
    (bar : Bar) : Bool :=
  let dt_open := get_bar_open_date_time p bar
  if p.sessionstart ≠ timeMin ∧ TimeOfDay.lt dt_open.time p.sessionstart then
    false
  else
    let dt_close := get_bar_close_date_time p dt_open 1
    if p.sessionend ≠ sessionEndDefault ∧ TimeOfDay.lt p.sessionend dt_close.time then
      false
    else
      let high := p.price bar.high
      let low := p.price bar.low
      if ¬ p.four_price_doji ∧ high = low then
        false
      else
        let time_market_now := get_alor_date_time_now env last_bar_received
        if DateTime.lt time_market_now dt_close ∧
            TimeOfDay.lt time_market_now.time p.sessionend then
          false
        else true

/-- The lines written on a successful `_load`. -/
def mkRecord (p : Params) (bar : Bar) : BarRecord :=
  { datetime := get_bar_open_date_time p bar
    open_ := p.price bar.open_
    high := p.price bar.high
    low := p.price bar.low
    close := p.price bar.close
    volume := bar.volume
    openinterest := 0 }

/-- The inbox comprehension filter in `_load`:
`b["provider_name"] == self.provider_name and b["response"]["guid"] == self.guid`. -/
def matchesEntry (p : Params) (e : InboxEntry) : Bool :=
  e.provider_name == p.provider_name && e.guid == p.guid

/-- `Data._load`: one reconciler step. Returns the outcome and the state
after the call. -/
def load (p : Params) (env : Env) (s : LState) : LoadResult × LState :=
  if ¬ p.live_bars then
    match s.history_bars with
    | [] =>
      (LoadResult.nomore, { s with notifs := s.notifs ++ [Notification.DISCONNECTED] })
    | bar :: rest =>
      (LoadResult.bar (mkRecord p bar), { s with history_bars := rest })
  else
    if s.new_bars.length = 0 then (LoadResult.nobar, s)
    else
      match s.new_bars.filter (matchesEntry p) with
      | [] => (LoadResult.nobar, s)
      | new_bar :: _ =>
        let s1 : LState :=
          { s with
            last_bar_received := (s.new_bars.filter (matchesEntry p)).length == 1,
            new_bars := s.new_bars.erase new_bar }
        let bar := new_bar.data
        if ¬ is_bar_valid p env s1.last_bar_received bar then (LoadResult.nobar, s1)
        else
          let dt_open := get_bar_open_date_time p bar
          if DateTime.le dt_open s.dt_last_open then (LoadResult.nobar, s1)
          else
            let s2 := { s1 with dt_last_open := dt_open }
            let s3 :=
              if s1.last_bar_received ∧ ¬ s.live_mode then
                { s2 with notifs := s2.notifs ++ [Notification.LIVE], live_mode := true }
              else if s.live_mode ∧ ¬ s1.last_bar_received then
                { s2 with notifs := s2.notifs ++ [Notification.DELAYED], live_mode := false }
              else s2
            (LoadResult.bar (mkRecord p bar), s3)

/-- The feed state right after `__init__`. -/
def initState : LState :=
  { history_bars := [], new_bars := [], dt_last_open := datetimeMin,
    last_bar_received := false, live_mode := false, notifs := [] }

/-- `Data.start`: emit `DELAYED`; in historical-only mode fetch history
(`fetched` is what the provider returned), keep the bars passing the
session filter and emit `CONNECTED` if at least one was kept; in live
mode subscribe (external) and emit `CONNECTED` unconditionally. -/
def start (p : Params) (env : Env) (fetched : List Bar) (s : LState) : LState :=
  let s0 := { s with notifs := s.notifs ++ [Notification.DELAYED] }
  if ¬ p.live_bars then
    let s1 := { s0 with
      history_bars := s0.history_bars
        ++ fetched.filter (fun b => is_bar_valid p env s0.last_bar_received b) }
    if s1.history_bars.length > 0 then
      { s1 with notifs := s1.notifs ++ [Notification.CONNECTED] }
    else s1
  else { s0 with notifs := s0.notifs ++ [Notification.CONNECTED] }

/-- Repeated host poll cycle: one `load` per environment snapshot. -/
def run (p : Params) : List Env → LState → List LoadResult × LState
  | [], s => ([], s)
  | e :: es, s =>
    let rs := load p e s
    let rest := run p es rs.2
    (rs.1 :: rest.1, rest.2)

/-- The bars a sequence of results emitted, in order. -/
def emitted (rs : List LoadResult) : List BarRecord :=
  rs.filterMap fun r =>
    match r with
    | LoadResult.bar b => some b
    | _ => none

/-! ## General list helpers -/

/-- Python `list.remove` of the first element a Boolean filter kept:
filtering the shortened list yields the filter's tail. -/
theorem filter_erase_head {α : Type} [DecidableEq α] (m : α → Bool) :
    ∀ (l : List α) (e : α) (rest : List α),
      l.filter m = e :: rest → (l.erase e).filter m = rest := by
  intro l
  induction l with
  | nil => intro e rest h; simp at h
  | cons a t ih =>
    intro e rest h
    by_cases hm : m a = true
    · rw [List.filter_cons_of_pos hm] at h
      injection h with h1 h2
      subst h1
      subst h2
      rw [List.erase_cons_head]
    · rw [List.filter_cons_of_neg hm] at h
      have hme : m e = true := List.of_mem_filter (h ▸ List.mem_cons_self e rest)
      have hne : ¬ (a == e) = true := by
        intro hbeq
        exact hm (by rwa [eq_of_beq hbeq])
      rw [List.erase_cons_tail hne, List.filter_cons_of_neg hm]
      exact ih e rest h

/-! ## Case analysis of one live-mode reconciler step -/
theorem load_live_no_match (p : Params) (env : Env) (s : LState)
    (hl : p.live_bars = true) (h : s.new_bars.filter (matchesEntry p) = []) :
    load p env s = (LoadResult.nobar, s) := by
  simp [load, hl, h]

theorem load_live_claimed (p : Params) (env : Env) (s : LState) (e : InboxEntry)
    (rest : List InboxEntry) (hl : p.live_bars = true)
    (hF : s.new_bars.filter (matchesEntry p) = e :: rest) :
    (load p env s).2.new_bars = s.new_bars.erase e
    ∧ (load p env s).2.last_bar_received = ((e :: rest).length == 1)
    ∧ ((load p env s).1 = LoadResult.nobar ∨ (load p env s).1 = LoadResult.bar (mkRecord p e.data))
    ∧ ((load p env s).1 = LoadResult.nobar →
        (load p env s).2.dt_last_open = s.dt_last_open
        ∧ (load p env s).2.live_mode = s.live_mode
        ∧ (load p env s).2.notifs = s.notifs)
    ∧ ((load p env s).1 = LoadResult.bar (mkRecord p e.data) →
        (load p env s).2.dt_last_open = (mkRecord p e.data).datetime
        ∧ DateTime.lt s.dt_last_open (mkRecord p e.data).datetime
        ∧ (load p env s).2.live_mode = ((e :: rest).length == 1)
        ∧ (load p env s).2.notifs =
            (if ((e :: rest).length == 1) = true ∧ s.live_mode = false
             then s.notifs ++ [Notification.LIVE]
             else if s.live_mode = true ∧ ((e :: rest).length == 1) = false
             then s.notifs ++ [Notification.DELAYED]
             else s.notifs)) := by
  have hne : ¬ s.new_bars.length = 0 := by
    intro h0
    rw [List.length_eq_zero] at h0
    rw [h0] at hF
    simp at hF
  have hlive : (¬ p.live_bars = true) = False := by simp [hl]
  simp only [load, hlive, if_false, hF, if_neg hne]
  by_cases hv : is_bar_valid p env ((e :: rest).length == 1) e.data = true
  case neg =>
    rw [if_pos hv]
    refine ⟨rfl, rfl, Or.inl rfl, fun _ => ⟨rfl, rfl, rfl⟩, ?_⟩
    intro hb
    cases hb
  case pos =>
    rw [if_neg (not_not_intro hv)]
    by_cases hst : DateTime.le (get_bar_open_date_time p e.data) s.dt_last_open
    case pos =>
      rw [if_pos hst]
      refine ⟨rfl, rfl, Or.inl rfl, fun _ => ⟨rfl, rfl, rfl⟩, ?_⟩
      intro hb
      cases hb
    case neg =>
      rw [if_neg hst]
      have hlt : DateTime.lt s.dt_last_open (get_bar_open_date_time p e.data) :=
        DateTime.not_le_iff_lt.mp hst
      by_cases h1 : ((e :: rest).length == 1) = true ∧ ¬ s.live_mode = true
      case pos =>
        rw [if_pos h1]
        refine ⟨rfl, rfl, Or.inr rfl, ?_, ?_⟩
        · intro hb; cases hb
        · intro _
          refine ⟨rfl, hlt, h1.1.symm, ?_⟩
          rw [if_pos ⟨h1.1, Bool.not_eq_true s.live_mode ▸ h1.2⟩]
      case neg =>
        rw [if_neg h1]
        by_cases h2 : s.live_mode = true ∧ ¬ ((e :: rest).length == 1) = true
        case pos =>
          rw [if_pos h2]
          refine ⟨rfl, rfl, Or.inr rfl, ?_, ?_⟩
          · intro hb; cases hb
          · intro _
            refine ⟨rfl, hlt, ?_, ?_⟩
            · exact (Bool.not_eq_true _ ▸ h2.2 : _ = false).symm
            · rw [if_neg (fun hcon => Bool.true_eq_false.mp (h2.1 ▸ hcon.2)),
                if_pos ⟨h2.1, Bool.not_eq_true _ ▸ h2.2⟩]
        case neg =>
          rw [if_neg h2]
          refine ⟨rfl, rfl, Or.inr rfl, ?_, ?_⟩
          · intro hb; cases hb
          · intro _
            refine ⟨rfl, hlt, ?_, ?_⟩
            · cases hlb : ((e :: rest).length == 1) <;> cases hlm : s.live_mode <;> simp_all
            · cases hlb : ((e :: rest).length == 1) <;> cases hlm : s.live_mode <;> simp_all

/-! ## Shared concrete scenario inputs -/

/-- The external price normalisation used in concrete scenarios. -/
def priceId : Int → Int := fun x => x

/-- A live-bars feed configuration with an unbounded session window. -/
def pLive : Params :=
  { live_bars := true, four_price_doji := true, sessionstart := timeMin,
    sessionend := sessionEndDefault, timeframe := TimeFrame.Days, compression := 1,
    provider_name := "alor", guid := "g1", price := priceId }

/-- The same configuration in historical-only mode. -/
def pHist : Params :=
  { pLive with live_bars := false }

/-- The same configuration with a month timeframe. -/
def pMonths : Params :=
  { pLive with timeframe := TimeFrame.Months }

/-- Historical-only configuration that rejects four-price dojis. -/
def pHistNoDoji : Params :=
  { pHist with four_price_doji := false }

/-- Clocks far in the future of every scenario bar, so no bar is still
forming. -/
def envNow : Env := { server_time := 2000000000, local_now_msk := ⟨2033, 1, 1, 0, 0, 0, 0⟩ }

/-- A daily bar opening 1970-01-02 UTC. -/
def bar1 : Bar := { time := 86400, open_ := 1, high := 3, low := 1, close := 2, volume := 10 }

/-- A daily bar opening 1970-01-03 UTC. -/
def bar2 : Bar := { time := 172800, open_ := 2, high := 5, low := 2, close := 4, volume := 20 }

/-- A daily bar opening 1970-01-04 UTC. -/
def bar3 : Bar := { time := 259200, open_ := 4, high := 6, low := 3, close := 5, volume := 30 }

/-- A four-price doji (all four prices equal) opening 1970-01-02 UTC. -/
def dojiBar : Bar := { time := 86400, open_ := 2, high := 2, low := 2, close := 2, volume := 5 }

/-- Inbox entry delivering `bar1` for `pLive`'s subscription. -/
def entry1 : InboxEntry := ⟨"alor", "g1", bar1⟩

/-- Inbox entry delivering `bar2` for `pLive`'s subscription. -/
def entry2 : InboxEntry := ⟨"alor", "g1", bar2⟩

/-- Live state whose inbox holds two matching entries (the spec's
two-entry live scenario). -/
def sLive2 : LState := { initState with new_bars := [entry1, entry2] }

/-- The state after the first poll of the two-entry live scenario. -/
def sAfter1 : LState := (load pLive envNow sLive2).2

/-- Live state holding one matching entry that is stale (older than the
low-water-mark). -/
def sStale : LState :=
  { initState with new_bars := [entry1], dt_last_open := ⟨2040, 1, 1, 0, 0, 0, 0⟩ }

/-- Live state holding one entry of another provider (no match). -/
def sNoMatch : LState :=
  { initState with new_bars := [⟨"other", "g1", bar1⟩] }

/-- Historical state pre-loaded with three ordered bars. -/
def sHist3 : LState := { initState with history_bars := [bar1, bar2, bar3] }

/-! ## Claim theorems -/

/-- Claim C5: a single drain of the notification sink returns exactly the
notifications queued before the drain call, in FIFO order, and removes
them from the queue; notifications appended to the back of the deque
during the drain's iteration land behind the sentinel, so they are not
returned by that drain but remain queued for the next one. -/
theorem drainFrom_until_sentinel {α : Type} (l : List α) (rem : List (Option α)) :
    drainFrom (l.map some ++ (none :: rem)) = (l, rem) := by
  induction l with
  | nil => rfl
  | cons a t ih => simp [drainFrom, ih]

theorem get_notifications_drain {α : Type} (queued during : List α) :
    get_notifications queued during = (queued, during.map some) := by
  have h := drainFrom_until_sentinel queued (during.map some)
  simpa [get_notifications, List.append_assoc] using h

/-- Claim C6: for the month timeframe the close time is computed with
year/month carry arithmetic landing on day 1 of the target month:
`datetime(year + (month+period-1) div 12, (month+period-1) mod 12 + 1, 1)`;
in particular open 2024-01-31 closes 2024-02-01 (not 2024-03-01) and open
2024-12-15 closes 2025-01-01. -/
theorem month_close_time (p : Params) (h : p.timeframe = TimeFrame.Months) :
    (∀ (dt_open : DateTime) (period : Nat),
      get_bar_close_date_time p dt_open period =
        { year := dt_open.year + (dt_open.month + period - 1) / 12,
          month := (dt_open.month + period - 1) % 12 + 1,
          day := 1, hour := 0, minute := 0, second := 0, microsecond := 0 })
    ∧ get_bar_close_date_time p ⟨2024, 1, 31, 0, 0, 0, 0⟩ 1 = ⟨2024, 2, 1, 0, 0, 0, 0⟩
    ∧ get_bar_close_date_time p ⟨2024, 12, 15, 0, 0, 0, 0⟩ 1 = ⟨2025, 1, 1, 0, 0, 0, 0⟩ := by
  refine ⟨fun dt_open period => ?_, ?_, ?_⟩ <;> simp [get_bar_close_date_time, h]

/-- Witness for C6 at the claim's two concrete datetimes. -/
theorem month_close_time_witness :
    get_bar_close_date_time pMonths ⟨2024, 1, 31, 0, 0, 0, 0⟩ 1 = ⟨2024, 2, 1, 0, 0, 0, 0⟩
    ∧ get_bar_close_date_time pMonths ⟨2024, 12, 15, 0, 0, 0, 0⟩ 1 = ⟨2025, 1, 1, 0, 0, 0, 0⟩ :=
  ⟨(month_close_time pMonths rfl).2.1, (month_close_time pMonths rfl).2.2⟩

/-- Claim C8: the timeframe-to-duration conversion fails (raises
`NotImplementedError`) for the month and year timeframes and returns a
definite duration for the day, week, minute and second timeframes. -/
theorem timeframe_to_timedelta_gaps (compression : Nat) :
    timeframe_to_timedelta TimeFrame.Months compression = Except.error ()
    ∧ timeframe_to_timedelta TimeFrame.Years compression = Except.error ()
    ∧ timeframe_to_timedelta TimeFrame.Days compression = Except.ok ⟨86400⟩
    ∧ timeframe_to_timedelta TimeFrame.Weeks compression = Except.ok ⟨604800⟩
    ∧ timeframe_to_timedelta TimeFrame.Minutes compression = Except.ok ⟨60 * compression⟩
    ∧ timeframe_to_timedelta TimeFrame.Seconds compression = Except.ok ⟨compression⟩ :=
  ⟨rfl, rfl, rfl, rfl, rfl, rfl⟩


/-- Claim C1 (amended): in live mode, when a poll finds matching inbox
entries it claims exactly one entry (both the inbox and its matching
sublist shrink by one), and `last_bar_received` is set to true exactly
when zero matching entries remain after the removal — the flag is
computed as (pre-removal matching count == 1), not "one remains". -/
theorem claim_one_last_bar (p : Params) (env : Env) (s : LState) (e : InboxEntry)
    (rest : List InboxEntry) (hl : p.live_bars = true)
    (hF : s.new_bars.filter (matchesEntry p) = e :: rest) :
    (load p env s).2.new_bars.length + 1 = s.new_bars.length
    ∧ ((load p env s).2.new_bars.filter (matchesEntry p)).length + 1
        = (s.new_bars.filter (matchesEntry p)).length
    ∧ ((load p env s).2.last_bar_received = true ↔
        ((load p env s).2.new_bars.filter (matchesEntry p)).length = 0) := by
  obtain ⟨hnb, hlbr, -, -, -⟩ := load_live_claimed p env s e rest hl hF
  have hmem : e ∈ s.new_bars := (List.mem_filter.mp (hF ▸ List.mem_cons_self e rest)).1
  have hfe : ((load p env s).2.new_bars).filter (matchesEntry p) = rest := by
    rw [hnb]
    exact filter_erase_head _ _ e rest hF
  refine ⟨?_, ?_, ?_⟩
  · rw [hnb, List.length_erase_of_mem hmem]
    have := List.length_pos.mpr (List.ne_nil_of_mem hmem)
    omega
  · rw [hfe, hF]
    simp
  · rw [hlbr, hfe]
    simp [beq_iff_eq, List.length_cons]

/-- Counterexample to Claim C1 as stated: with two matching entries in
the inbox, after the poll exactly one matching entry remains, yet
`last_bar_received` is false, contradicting
`last_bar_received = (remaining after removal == 1)`. -/
theorem last_bar_flag_counterexample :
    ((load pLive envNow sLive2).2.new_bars.filter (matchesEntry pLive)).length = 1
    ∧ (load pLive envNow sLive2).2.last_bar_received = false := by decide

/-- Witness for the amended Claim C1 on the concrete two-entry inbox. -/
theorem claim_one_last_bar_witness :
    (load pLive envNow sLive2).2.new_bars.length + 1 = sLive2.new_bars.length
    ∧ ((load pLive envNow sLive2).2.new_bars.filter (matchesEntry pLive)).length + 1
        = (sLive2.new_bars.filter (matchesEntry pLive)).length
    ∧ ((load pLive envNow sLive2).2.last_bar_received = true ↔
        ((load pLive envNow sLive2).2.new_bars.filter (matchesEntry pLive)).length = 0) :=
  claim_one_last_bar pLive envNow sLive2 entry1 [entry2] rfl (by decide)

/-- Claim C9: on a live-mode poll that claims an inbox entry,
`last_bar_received` gets its new value regardless of the outcome (so it
is updated even when the entry is filtered out or stale and the call
returns "no bar yet"); `dt_last_open` and `live_mode` are unchanged on
any call that does not emit; a poll finding no matching entry returns
"no bar yet" and leaves the whole state unchanged. -/
theorem load_state_frame (p : Params) (env : Env) (s : LState) (hl : p.live_bars = true) :
    (∀ e rest, s.new_bars.filter (matchesEntry p) = e :: rest →
      (load p env s).2.last_bar_received = ((e :: rest).length == 1))
    ∧ ((load p env s).1 = LoadResult.nobar →
        (load p env s).2.dt_last_open = s.dt_last_open
        ∧ (load p env s).2.live_mode = s.live_mode)
    ∧ (s.new_bars.filter (matchesEntry p) = [] → load p env s = (LoadResult.nobar, s)) := by
  refine ⟨?_, ?_, fun h => load_live_no_match p env s hl h⟩
  · intro e rest hF
    exact (load_live_claimed p env s e rest hl hF).2.1
  · intro hres
    cases hFc : s.new_bars.filter (matchesEntry p) with
    | nil =>
      rw [load_live_no_match p env s hl hFc]
      exact ⟨rfl, rfl⟩
    | cons e rest =>
      obtain ⟨-, -, -, hno, -⟩ := load_live_claimed p env s e rest hl hFc
      exact ⟨(hno hres).1, (hno hres).2.1⟩

/-- Witness for Claim C9: the two-entry inbox (flag updated), a stale
entry (no-bar call leaves `dt_last_open`/`live_mode` alone), and a
non-matching entry (state untouched). -/
theorem load_state_frame_witness :
    (load pLive envNow sLive2).2.last_bar_received = ((entry1 :: [entry2]).length == 1)
    ∧ ((load pLive envNow sStale).2.dt_last_open = sStale.dt_last_open
        ∧ (load pLive envNow sStale).2.live_mode = sStale.live_mode)
    ∧ load pLive envNow sNoMatch = (LoadResult.nobar, sNoMatch) :=
  ⟨(load_state_frame pLive envNow sLive2 rfl).1 entry1 [entry2] (by decide),
   (load_state_frame pLive envNow sStale rfl).2.1 (by decide),
   (load_state_frame pLive envNow sNoMatch rfl).2.2 (by decide)⟩

/-- Claim C3: on every live-mode poll that emits a bar, a LIVE
notification is emitted and `live_mode` set exactly when
`last_bar_received` holds and `live_mode` was false; a DELAYED
notification is emitted and `live_mode` cleared exactly when `live_mode`
was true and `last_bar_received` is false; in the two remaining cases no
notification is emitted and `live_mode` is unchanged — in particular
LIVE is never emitted while already in live mode. -/
theorem live_transition (p : Params) (env : Env) (s : LState) (r : BarRecord)
    (hl : p.live_bars = true) (hr : (load p env s).1 = LoadResult.bar r) :
    ((load p env s).2.last_bar_received = true → s.live_mode = false →
      (load p env s).2.notifs = s.notifs ++ [Notification.LIVE]
      ∧ (load p env s).2.live_mode = true)
    ∧ (s.live_mode = true → (load p env s).2.last_bar_received = false →
      (load p env s).2.notifs = s.notifs ++ [Notification.DELAYED]
      ∧ (load p env s).2.live_mode = false)
    ∧ (s.live_mode = true → (load p env s).2.last_bar_received = true →
      (load p env s).2.notifs = s.notifs ∧ (load p env s).2.live_mode = true)
    ∧ ((load p env s).2.last_bar_received = false → s.live_mode = false →
      (load p env s).2.notifs = s.notifs ∧ (load p env s).2.live_mode = false) := by
  cases hFc : s.new_bars.filter (matchesEntry p) with
  | nil =>
    rw [load_live_no_match p env s hl hFc] at hr
    cases hr
  | cons e rest =>
    obtain ⟨-, hlbr, hdis, -, hbar⟩ := load_live_claimed p env s e rest hl hFc
    have hb : (load p env s).1 = LoadResult.bar (mkRecord p e.data) := by
      rcases hdis with h | h
      · rw [hr] at h; cases h
      · exact h
    obtain ⟨-, -, hlm, hnotifs⟩ := hbar hb
    rw [hlbr, hlm, hnotifs]
    cases hx : ((e :: rest).length == 1) <;> cases hlmode : s.live_mode <;>
      simp [hx, hlmode]

/-- Witness for Claim C3: the second poll of the two-entry scenario
emits the LIVE notification exactly once. -/
theorem live_transition_witness :
    (load pLive envNow sAfter1).2.notifs = sAfter1.notifs ++ [Notification.LIVE]
    ∧ (load pLive envNow sAfter1).2.live_mode = true :=
  (live_transition pLive envNow sAfter1 (mkRecord pLive bar2) rfl (by decide)).1
    (by decide) (by decide)

/-- Historical-only mode with an exhausted list: the sentinel and a
DISCONNECTED notification. -/
theorem load_hist_empty (p : Params) (env : Env) (s : LState)
    (hl : p.live_bars = false) (hs : s.history_bars = []) :
    load p env s
      = (LoadResult.nomore, { s with notifs := s.notifs ++ [Notification.DISCONNECTED] }) := by
  simp [load, hl, hs]

/-- Historical-only mode pops and emits the head of the list. -/
theorem load_hist_cons (p : Params) (env : Env) (s : LState) (b : Bar) (rest : List Bar)
    (hl : p.live_bars = false) (hs : s.history_bars = b :: rest) :
    load p env s = (LoadResult.bar (mkRecord p b), { s with history_bars := rest }) := by
  simp [load, hl, hs]

/-- Claim C2 (amended): in live mode every run of polls emits bars with
pairwise strictly increasing `open_time` (hence at most one bar per
`open_time`, and never one at or below a previously emitted open time),
each strictly above the feed's initial low-water-mark. The historical
path gives no such guarantee (see the counterexample). -/
theorem run_live_monotone (p : Params) (hl : p.live_bars = true) :
    ∀ (es : List Env) (s : LState),
      List.Pairwise (fun r1 r2 => DateTime.lt r1.datetime r2.datetime)
        (emitted (run p es s).1)
      ∧ ∀ r ∈ emitted (run p es s).1, DateTime.lt s.dt_last_open r.datetime := by
  intro es
  induction es with
  | nil =>
    intro s
    exact ⟨List.Pairwise.nil, by simp [run, emitted]⟩
  | cons e tail ih =>
    intro s
    cases hFc : s.new_bars.filter (matchesEntry p) with
    | nil =>
      have hload := load_live_no_match p e s hl hFc
      have hrew : emitted (run p (e :: tail) s).1
          = emitted (run p tail (load p e s).2).1 := by
        simp [run, emitted, List.filterMap_cons, hload]
      have hst : (load p e s).2 = s := by rw [hload]
      rw [hrew, hst]
      exact ih s
    | cons e0 rest =>
      obtain ⟨-, -, hdis, hno, hbar⟩ := load_live_claimed p e s e0 rest hl hFc
      rcases hdis with hres | hres
      · obtain ⟨hdt, -, -⟩ := hno hres
        have hrew : emitted (run p (e :: tail) s).1
            = emitted (run p tail (load p e s).2).1 := by
          simp [run, emitted, List.filterMap_cons, hres]
        rw [hrew]
        refine ⟨(ih _).1, fun r hr => ?_⟩
        have hlt := (ih ((load p e s).2)).2 r hr
        rwa [hdt] at hlt
      · obtain ⟨hdt, hlt, -, -⟩ := hbar hres
        have hrew : emitted (run p (e :: tail) s).1
            = mkRecord p e0.data :: emitted (run p tail (load p e s).2).1 := by
          simp [run, emitted, List.filterMap_cons, hres]
        rw [hrew]
        have ihh := ih ((load p e s).2)
        constructor
        · refine List.pairwise_cons.mpr ⟨fun r2 hr2 => ?_, ihh.1⟩
          have hlt2 := ihh.2 r2 hr2
          rwa [hdt] at hlt2
        · intro r hr
          rcases List.mem_cons.mp hr with rfl | hr2
          · exact hlt
          · have hlt2 := ihh.2 r hr2
            rw [hdt] at hlt2
            exact DateTime.lt_trans hlt hlt2

/-- Witness for the amended Claim C2 on the concrete two-entry run. -/
theorem run_live_monotone_witness :
    List.Pairwise (fun r1 r2 => DateTime.lt r1.datetime r2.datetime)
      (emitted (run pLive [envNow, envNow] sLive2).1)
    ∧ ∀ r ∈ emitted (run pLive [envNow, envNow] sLive2).1,
        DateTime.lt sLive2.dt_last_open r.datetime :=
  run_live_monotone pLive rfl [envNow, envNow] sLive2

/-- Counterexample to Claim C2 as stated: in historical-only mode a
provider-returned out-of-order history is emitted as-is — the second of
two consecutively emitted bars has a smaller `open_time`. -/
theorem monotone_counterexample :
    emitted (run pHist [envNow, envNow] (start pHist envNow [bar2, bar1] initState)).1
      = [mkRecord pHist bar2, mkRecord pHist bar1]
    ∧ DateTime.lt (mkRecord pHist bar1).datetime (mkRecord pHist bar2).datetime := by
  exact ⟨by decide, by decide⟩

/-- Claim C4: in historical-only mode with n pre-fetched bars, the
first n polls emit them in order, the (n+1)-th returns the "no more
data" sentinel, after which DISCONNECTED has been notified exactly once
and every further poll returns the sentinel (never a bar). -/
theorem historical_exhaustion (p : Params) (hl : p.live_bars = false) :
    ∀ (bars : List Bar) (s : LState) (envs : List Env),
      s.history_bars = bars →
      envs.length = bars.length + 1 →
      Notification.DISCONNECTED ∉ s.notifs →
      (run p envs s).1
          = bars.map (fun b => LoadResult.bar (mkRecord p b)) ++ [LoadResult.nomore]
      ∧ (run p envs s).2.notifs.count Notification.DISCONNECTED = 1
      ∧ ∀ env2, (load p env2 (run p envs s).2).1 = LoadResult.nomore := by
  intro bars
  induction bars with
  | nil =>
    intro s envs hs hlen hnot
    cases envs with
    | nil => simp at hlen
    | cons e etail =>
      cases etail with
      | cons e2 t2 => simp at hlen
      | nil =>
        have hload := load_hist_empty p e s hl hs
        have hrun : run p [e] s = ([(load p e s).1], (load p e s).2) := rfl
        rw [hrun, hload]
        refine ⟨rfl, ?_, ?_⟩
        · simp [List.count_append, List.count_eq_zero.mpr hnot]
        · intro env2
          rw [load_hist_empty p env2 _ hl (by simp [hs])]
  | cons b rest ih =>
    intro s envs hs hlen hnot
    cases envs with
    | nil => simp at hlen
    | cons e etail =>
      have hload := load_hist_cons p e s b rest hl hs
      have hrun : run p (e :: etail) s
          = ((load p e s).1 :: (run p etail (load p e s).2).1,
             (run p etail (load p e s).2).2) := rfl
      have hih := ih { s with history_bars := rest } etail rfl
        (by simpa using hlen) hnot
      rw [hrun, hload]
      exact ⟨by rw [hih.1]; rfl, hih.2.1, hih.2.2⟩

/-- Witness for Claim C4 with three pre-fetched bars and four polls. -/
theorem historical_exhaustion_witness :
    (run pHist [envNow, envNow, envNow, envNow] sHist3).1
        = [bar1, bar2, bar3].map (fun b => LoadResult.bar (mkRecord pHist b))
          ++ [LoadResult.nomore]
    ∧ (run pHist [envNow, envNow, envNow, envNow] sHist3).2.notifs.count
        Notification.DISCONNECTED = 1
    ∧ ∀ env2, (load pHist env2 (run pHist [envNow, envNow, envNow, envNow] sHist3).2).1
        = LoadResult.nomore :=
  historical_exhaustion pHist rfl [bar1, bar2, bar3] sHist3
    [envNow, envNow, envNow, envNow] rfl rfl (by decide)

/-- A historical-only poll never adds a CONNECTED notification. -/
theorem load_hist_connected (p : Params) (env : Env) (s : LState)
    (hl : p.live_bars = false) (h : Notification.CONNECTED ∉ s.notifs) :
    Notification.CONNECTED ∉ (load p env s).2.notifs := by
  cases hs : s.history_bars with
  | nil =>
    rw [load_hist_empty p env s hl hs]
    simp [h]
  | cons b rest =>
    rw [load_hist_cons p env s b rest hl hs]
    exact h

/-- No run of historical-only polls ever adds CONNECTED. -/
theorem run_hist_connected (p : Params) (hl : p.live_bars = false) :
    ∀ (es : List Env) (s : LState), Notification.CONNECTED ∉ s.notifs →
      Notification.CONNECTED ∉ (run p es s).2.notifs := by
  intro es
  induction es with
  | nil => intro s h; exact h
  | cons e tail ih =>
    intro s h
    exact ih _ (load_hist_connected p e s hl h)

/-- Claim C10: in historical-only mode, CONNECTED is emitted at start
iff at least one fetched bar passes the session filter; when none does,
the start notifications are exactly DELAYED, the first poll returns the
sentinel making the sequence DELAYED then DISCONNECTED, and CONNECTED is
never emitted by any subsequent run of polls. -/
theorem historical_connected_iff (p : Params) (env : Env) (fetched : List Bar)
    (hl : p.live_bars = false) :
    (Notification.CONNECTED ∈ (start p env fetched initState).notifs ↔
      fetched.filter (fun b => is_bar_valid p env false b) ≠ [])
    ∧ (fetched.filter (fun b => is_bar_valid p env false b) = [] →
        (start p env fetched initState).notifs = [Notification.DELAYED]
        ∧ (∀ env2, (load p env2 (start p env fetched initState)).1 = LoadResult.nomore
            ∧ (load p env2 (start p env fetched initState)).2.notifs
                = [Notification.DELAYED, Notification.DISCONNECTED])
        ∧ ∀ es, Notification.CONNECTED ∉ (run p es (start p env fetched initState)).2.notifs) := by
  have hcond : (¬ p.live_bars = true) := by simp [hl]
  have hstart : start p env fetched initState
      = (if (fetched.filter (fun b => is_bar_valid p env false b)).length > 0
         then { initState with
                history_bars := fetched.filter (fun b => is_bar_valid p env false b),
                notifs := [Notification.DELAYED, Notification.CONNECTED] }
         else { initState with
                history_bars := fetched.filter (fun b => is_bar_valid p env false b),
                notifs := [Notification.DELAYED] }) := by
    simp only [start, if_pos hcond, initState]
    rfl
  cases hfil : fetched.filter (fun b => is_bar_valid p env false b) with
  | cons b bs =>
    rw [hstart, hfil, if_pos (by simp)]
    refine ⟨?_, ?_⟩
    · simp
    · intro hcon
      cases hcon
  | nil =>
    rw [hstart, hfil, if_neg (by simp)]
    refine ⟨by simp, fun _ => ⟨rfl, ?_, ?_⟩⟩
    · intro env2
      rw [load_hist_empty p env2 _ hl rfl]
      exact ⟨rfl, rfl⟩
    · intro es
      exact run_hist_connected p hl es _ (by simp)

/-- Witness for Claim C10 with a single fetched doji bar that the
session filter rejects. -/
theorem historical_connected_iff_witness :
    (Notification.CONNECTED ∈ (start pHistNoDoji envNow [dojiBar] initState).notifs ↔
      [dojiBar].filter (fun b => is_bar_valid pHistNoDoji envNow false b) ≠ [])
    ∧ (start pHistNoDoji envNow [dojiBar] initState).notifs = [Notification.DELAYED]
    ∧ (load pHistNoDoji envNow (start pHistNoDoji envNow [dojiBar] initState)).1
        = LoadResult.nomore
    ∧ (load pHistNoDoji envNow (start pHistNoDoji envNow [dojiBar] initState)).2.notifs
        = [Notification.DELAYED, Notification.DISCONNECTED] :=
  ⟨(historical_connected_iff pHistNoDoji envNow [dojiBar] rfl).1,
   ((historical_connected_iff pHistNoDoji envNow [dojiBar] rfl).2 (by decide)).1,
   (((historical_connected_iff pHistNoDoji envNow [dojiBar] rfl).2 (by decide)).2.1 envNow).1,
   (((historical_connected_iff pHistNoDoji envNow [dojiBar] rfl).2 (by decide)).2.1 envNow).2⟩

/-- Claim C7: for a bar whose normalised high equals its normalised low
(four-price doji), with every other input held constant and the other
three session-filter rules passing, the filter rejects the bar when
`four_price_doji` is false and accepts it when true. -/
theorem four_price_doji_filter (p : Params) (env : Env) (lbr : Bool) (bar : Bar)
    (h1 : ¬ (p.sessionstart ≠ timeMin
      ∧ TimeOfDay.lt (get_bar_open_date_time p bar).time p.sessionstart))
    (h2 : ¬ (p.sessionend ≠ sessionEndDefault
      ∧ TimeOfDay.lt p.sessionend
          (get_bar_close_date_time p (get_bar_open_date_time p bar) 1).time))
    (h4 : ¬ (DateTime.lt (get_alor_date_time_now env lbr)
          (get_bar_close_date_time p (get_bar_open_date_time p bar) 1)
      ∧ TimeOfDay.lt (get_alor_date_time_now env lbr).time p.sessionend))
    (hdoji : p.price bar.high = p.price bar.low) :
    is_bar_valid { p with four_price_doji := false } env lbr bar = false
    ∧ is_bar_valid { p with four_price_doji := true } env lbr bar = true := by
  constructor
  · simp only [is_bar_valid]
    rw [if_neg (by simpa using h1), if_neg (by simpa using h2)]
    rw [if_pos (And.intro (by simp) hdoji)]
  · simp only [is_bar_valid]
    rw [if_neg (by simpa using h1), if_neg (by simpa using h2)]
    rw [if_neg (by simp), if_neg (by simpa using h4)]

/-- Witness for Claim C7 on a concrete doji bar in an unbounded
session window. -/
theorem four_price_doji_filter_witness :
    is_bar_valid { pMonths with four_price_doji := false } envNow false dojiBar = false
    ∧ is_bar_valid { pMonths with four_price_doji := true } envNow false dojiBar = true :=
  four_price_doji_filter pMonths envNow false dojiBar (by decide) (by decide)
    (by decide) (by decide)
